import Mathlib

/-!
Verification development for the HAR replay / synthetic-meeting-generator tool.

The Python source is shallowly embedded:
* timestamps and float durations are modelled as rationals (`ℚ`);
* Python `int(x)` (truncation toward zero) is `pyTrunc`, `//` is `Int.fdiv`,
  `%` is `Int.fmod` (both take the sign of the divisor, like Python);
* code that can raise an uncaught exception is modelled in `Option` / `Except`
  (`none` / `.error` = the exception propagates); on the synthesizer side the
  error value records the Python exception kind (`PyErr`), because which
  exception fires where is itself at issue there;
* request bodies are carried as already-JSON-classified values (the Python code
  delegates decoding to `json.loads`; we model its outcome, not the parser);
* the Python `sort` / `sorted` calls are stable sorts, embedded as
  `List.insertionSort` with the same comparator — also stable, and any two
  stable sorts under one comparator produce the identical output list.
-/

namespace VexaTest

/-- Test whether the first list is an initial segment of the second. -/
def leadsWith : List Char → List Char → Bool
  | [], _ => true
  | _ :: _, [] => false
  | a :: as, b :: bs => a = b && leadsWith as bs

/-- Occurrence of `needle` as a contiguous sublist. -/
def hasSubList (needle : List Char) : List Char → Bool
  | [] => needle.isEmpty
  | c :: rest => leadsWith needle (c :: rest) || hasSubList needle rest

/-- Python `needle in hay` substring test (used for URL classification). -/
def containsSub (hay needle : String) : Bool :=
  hasSubList needle.data hay.data

/-- Accumulating decimal-digit reader (`acc` = value of digits read so far). -/
def digitsValGo (acc : Nat) : List Char → Option Nat
  | [] => some acc
  | c :: cs =>
    if '0' ≤ c ∧ c ≤ '9' then digitsValGo (acc * 10 + (c.toNat - '0'.toNat)) cs
    else none

/-- Value of a non-empty all-digit character list. -/
def digitsVal : List Char → Option Nat
  | [] => none
  | c :: cs => digitsValGo 0 (c :: cs)

/-- Python `int(s)` on a string: optional sign followed by decimal digits
(`none` = `ValueError`). -/
def pyParseInt (s : String) : Option Int :=
  match s.data with
  | '-' :: rest => (digitsVal rest).map (fun n => -(n : Int))
  | '+' :: rest => (digitsVal rest).map (fun n => (n : Int))
  | l => (digitsVal l).map (fun n => (n : Int))

/-- Python `int(q)` on a float/fraction: truncation toward zero. -/
def pyTrunc (q : ℚ) : Int :=
  q.num.tdiv q.den

/-- Python integer floor division `a // b` (caller must rule out `b = 0`). -/
def pyFdiv (a b : Int) : Int :=
  Int.fdiv a b

/-- Python integer modulo `a % b`, sign of the divisor (caller rules out `b = 0`). -/
def pyMod (a b : Int) : Int :=
  Int.fmod a b

/-- Lookup in the dict built by `{q['name']: q['value'] for q in queryString}`:
later duplicates of a name override earlier ones. -/
def qget (query : List (String × String)) (k : String) : Option String :=
  (query.reverse.find? (fun p => p.1 = k)).map (fun p => p.2)

/-- Membership test `k in query-dict`. -/
def qhas (query : List (String × String)) (k : String) : Bool :=
  query.any (fun p => p.1 = k)

/-! ### Request bodies

The replay loader never decodes a body; the template loader and the Sender do,
via `json.loads`.  We embed a body as the classification of that decode:
a JSON object with the fields the audio path looks at, a JSON list of string
lists (the speaker pair-list shape), or undecodable text. -/

inductive JsonBody where
  /-- Case where `json.loads` yields a dict; we record the `audio_chunk` and `chunk_index`
  fields the audio path reads (absent field = `none`). -/
  | audioDict (audio_chunk : Option String) (chunk_index : Option Int)
  /-- Case where `json.loads` yields a list of lists of strings (pair-list shape). -/
  | speakerList (items : List (List String))
  /-- Case where `json.loads` raises `JSONDecodeError`. -/
  | badJson
deriving DecidableEq, Repr

/-! ### Replay-side data model (`src/models.py`, `src/replay.py`) -/

/-- Model `AudioCall` (models.py): the typed audio record; timestamps as ℚ seconds. -/
structure AudioCall where
  chunk_index : Int
  connection_id : String
  meeting_id : String
  timestamp : ℚ
  body : Option JsonBody
deriving DecidableEq, Repr

/-- Model `SpeakersCall` (models.py): `connection_id` is optional. -/
structure SpeakersCall where
  connection_id : Option String
  meeting_id : String
  call_name : Option String
  timestamp : ℚ
  body : Option JsonBody
deriving DecidableEq, Repr

/-- One entry of the HAR log as the replay loop reads it: URL, query-string
pairs, parsed `startedDateTime`, optional body text (already JSON-classified). -/
structure RawEntry where
  url : String
  query : List (String × String)
  timestamp : ℚ
  body : Option JsonBody
deriving DecidableEq, Repr

/-- A loaded call tagged by kind, as stored in `all_calls`. -/
inductive LoadedCall where
  | audio (a : AudioCall)
  | speaker (s : SpeakersCall)
deriving DecidableEq, Repr

/-- Timestamp of a loaded call (the first component of the `all_calls` pairs). -/
def LoadedCall.ts : LoadedCall → ℚ
  | .audio a => a.timestamp
  | .speaker s => s.timestamp

/-- Parsing `AudioCall.from_har_entry` (models.py:56-67): requires `i` to parse as an
integer and `connection_id` / `meeting_id` to be present; any failure raises,
and in `replay_calls` that exception is uncaught. -/
def AudioCall.from_har_entry (e : RawEntry) : Option AudioCall := do
  let iStr ← qget e.query "i"
  let i ← pyParseInt iStr
  let conn ← qget e.query "connection_id"
  let meet ← qget e.query "meeting_id"
  pure { chunk_index := i, connection_id := conn, meeting_id := meet,
         timestamp := e.timestamp, body := e.body }

/-- Parsing `SpeakersCall.from_har_entry` (models.py:75-102): returns `None` when
`meeting_id` is absent or empty (Python `if not meeting_id`); `connection_id`
may be absent.  The body is not decoded here. -/
def SpeakersCall.from_har_entry (e : RawEntry) : Option SpeakersCall := do
  let meet ← qget e.query "meeting_id"
  if meet = "" then none else
  pure { connection_id := qget e.query "connection_id", meeting_id := meet,
         call_name := some ((qget e.query "call_name").getD ""),
         timestamp := e.timestamp, body := e.body }

/-- The per-entry decision of the loading loop in `replay_calls`
(replay.py:115-131) for a speakers URL: the entry is kept only when the
`connection_id` query parameter is present AND `from_har_entry` yields a call
(otherwise `call.timestamp` on `None` raises and the `except` logs and skips). -/
def loadSpeakerEntry (e : RawEntry) : Option SpeakersCall :=
  if qhas e.query "connection_id" then SpeakersCall.from_har_entry e else none

/-- The loading loop of `replay_calls` (replay.py:114-131).  An audio entry
that fails to parse raises an uncaught exception (whole replay dies → `none`);
a speakers entry that fails to load is skipped; other URLs are ignored. -/
def loadCalls : List RawEntry → Option (List LoadedCall)
  | [] => some []
  | e :: rest =>
    if containsSub e.url "/extension/audio" then
      match AudioCall.from_har_entry e with
      | some a => (loadCalls rest).map (fun l => .audio a :: l)
      | none => none
    else if containsSub e.url "/extension/speakers" then
      match loadSpeakerEntry e with
      | some s => (loadCalls rest).map (fun l => .speaker s :: l)
      | none => loadCalls rest
    else
      loadCalls rest

/-! ### Chunk Sequence Validator (`ApiReplay._validate_audio_chunks`) -/

/-- Worker for `firstKeys`; `seen` accumulates keys already emitted. -/
def firstKeysGo (seen : List String) : List String → List String
  | [] => []
  | k :: ks => if k ∈ seen then firstKeysGo seen ks else k :: firstKeysGo (k :: seen) ks

/-- Keys of a Python dict built by repeated insertion: first-occurrence order. -/
def firstKeys (l : List String) : List String :=
  firstKeysGo [] l

/-- The chunks grouped under one connection id, in append order. -/
def groupOf (audio : List AudioCall) (c : String) : List AudioCall :=
  audio.filter (fun a => a.connection_id = c)

/-- Stable `sorted(chunks, key=lambda x: x.chunk_index)`. -/
def sortByIdx (l : List AudioCall) : List AudioCall :=
  List.insertionSort (fun a b => a.chunk_index ≤ b.chunk_index) l

/-- The per-connection loop of `_validate_audio_chunks` (replay.py:85-106):
raises `ValueError` naming the connection and its first (lowest) chunk index
when that index is not 0.  Gaps are only logged.  The error value carries
the connection id and the offending index. -/
def validateLoop (audio : List AudioCall) : List String → Except (String × Int) Unit
  | [] => .ok ()
  | c :: cs =>
    match sortByIdx (groupOf audio c) with
    | [] => validateLoop audio cs
    | a :: _ =>
      if a.chunk_index ≠ 0 then .error (c, a.chunk_index)
      else validateLoop audio cs

/-- Validator `_validate_audio_chunks` (replay.py:71-106).  An empty audio list only
logs an error and returns. -/
def validateAudioChunks (audio : List AudioCall) : Except (String × Int) Unit :=
  validateLoop audio (firstKeys (audio.map (fun a => a.connection_id)))

/-! ### Replay Scheduler loop (`ApiReplay.replay_calls`, `_calculate_delay`) -/

/-- The configuration surface the scheduler reads (`config.PRESERVE_TIMING`,
`config.TIME_SCALE`). -/
structure RConfig where
  preserve_timing : Bool
  time_scale : ℚ
deriving DecidableEq, Repr

/-- Delay law `ApiReplay._calculate_delay` (replay.py:54-59). -/
def calculate_delay (cfg : RConfig) (current previous : ℚ) : ℚ :=
  if !cfg.preserve_timing then 0
  else max 0 ((current - previous) * cfg.time_scale)

/-- One iteration of the replay loop: the record, the delay slept before the
dispatch attempt, and whether the Sender call succeeded. -/
structure Step where
  call : LoadedCall
  delay : ℚ
  ok : Bool
deriving DecidableEq, Repr

/-- The for-loop of `replay_calls` (replay.py:169-198).  `fails k` says the
`k`-th dispatch attempt raises in the Sender (network error, non-2xx,
validation error); the except-branch logs, skips the `previous_time` update
and continues.  `previous_time` advances to the record's timestamp only on
success (line 198 is skipped by the `continue`). -/
def replayLoop (cfg : RConfig) (fails : Nat → Bool) (k : Nat) (prev : ℚ) :
    List LoadedCall → List Step
  | [] => []
  | c :: rest =>
    let d := calculate_delay cfg c.ts prev
    let ok := !(fails k)
    { call := c, delay := d, ok := ok } ::
      replayLoop cfg fails (k + 1) (if ok then c.ts else prev) rest

/-- Set `sent_chunks`: pairs added exactly after a successful `send_audio`. -/
def sentOf (steps : List Step) : List (String × Int) :=
  steps.filterMap (fun s =>
    match s.call with
    | .audio a => if s.ok then some (a.connection_id, a.chunk_index) else none
    | .speaker _ => none)

/-- Expected-but-unsent chunk indices of one connection
(`expected_indices - sent_indices`, replay.py:210-212). -/
def missingOf (audio : List AudioCall) (sent : List (String × Int))
    (c : String) : List Int :=
  ((List.range (groupOf audio c).length).map Int.ofNat).filter
    (fun i => decide ((c, i) ∉ sent))

/-- The closing audit of `replay_calls` (replay.py:200-222): per connection,
`expected = set(range(len(chunks)))` minus the sent indices; a connection is
reported iff something is missing. -/
def auditReport (audio : List AudioCall) (sent : List (String × Int)) :
    List (String × List Int) :=
  (firstKeys (audio.map (fun a => a.connection_id))).filterMap (fun c =>
    if missingOf audio sent c = [] then none
    else some (c, missingOf audio sent c))

/-- Stable `all_calls.sort(key=lambda x: x[0])`: sort by timestamp. -/
def sortByTs (l : List LoadedCall) : List LoadedCall :=
  List.insertionSort (fun a b => a.ts ≤ b.ts) l

/-- Audio projection of the sorted call list (replay.py:141). -/
def audioOf (l : List LoadedCall) : List AudioCall :=
  l.filterMap (fun c => match c with | .audio a => some a | .speaker _ => none)

/-- The observable outcome of one `replay_calls` run. -/
structure ReplayResult where
  /-- Value `some (conn, idx)` when chunk validation raised and the run returned
  before dispatching anything. -/
  validationError : Option (String × Int)
  steps : List Step
  sent : List (String × Int)
  report : List (String × List Int)
deriving DecidableEq, Repr

/-- Driver `ApiReplay.replay_calls` (replay.py:108-222), with file/network side
effects dropped.  `none` = an uncaught exception (unparseable audio entry).
An empty call list, or a validation error, returns before the dispatch loop. -/
def replay_calls (cfg : RConfig) (fails : Nat → Bool) (entries : List RawEntry) :
    Option ReplayResult := do
  let all ← loadCalls entries
  match sortByTs all with
  | [] =>
    -- `if not all_calls: return` (the sort preserves emptiness)
    pure { validationError := none, steps := [], sent := [], report := [] }
  | s0 :: srest =>
    let sorted := s0 :: srest
    let audio := audioOf sorted
    match validateAudioChunks audio with
    | .error e =>
      pure { validationError := some e, steps := [], sent := [], report := [] }
    | .ok _ =>
      let steps := replayLoop cfg fails 0 s0.ts sorted
      let sent := sentOf steps
      pure { validationError := none, steps := steps, sent := sent,
             report := auditReport audio sent }

/-! ### Synthetic data model (`src/synthetic.py`) -/

/-- Kinds of Python exception the synthesizer can raise; none of them is
caught inside `generate_meeting` / `generate_test_scenario`, so they
propagate to the caller. -/
inductive PyErr where
  | attributeError
  | zeroDivisionError
  | valueError
deriving DecidableEq, Repr

/-- Decidable equality on `Except`, so that concrete synthesizer runs can be
settled by evaluation. -/
instance instDecidableEqExcept {ε α : Type} [DecidableEq ε] [DecidableEq α] :
    DecidableEq (Except ε α) :=
  fun x y =>
    match x, y with
    | .error a, .error b =>
      if h : a = b then .isTrue (by rw [h])
      else .isFalse (by intro hc; cases hc; exact h rfl)
    | .error _, .ok _ => .isFalse (by intro hc; cases hc)
    | .ok _, .error _ => .isFalse (by intro hc; cases hc)
    | .ok a, .ok b =>
      if h : a = b then .isTrue (by rw [h])
      else .isFalse (by intro hc; cases hc; exact h rfl)

/-- Dataclass `Speaker`: name plus (start_sec, end_sec) speaking periods. -/
structure Speaker where
  name : String
  speaking_patterns : List (ℚ × ℚ)
deriving DecidableEq, Repr

/-- Dataclass `SyntheticUser`. -/
structure SyntheticUser where
  user_id : String
  connection_id : String
deriving DecidableEq, Repr

/-- Dataclass `SyntheticMeeting`.  `speakers = None` (or an empty list, both
falsy under `if not config.speakers`) means "derive from template". -/
structure SyntheticMeeting where
  meeting_id : String
  duration_minutes : Int
  num_users : Int
  speakers : Option (List Speaker)
  chunk_duration_sec : ℚ
  speaker_update_interval_sec : ℚ
  start_time : ℚ
deriving DecidableEq, Repr

/-- One value of a template pattern's `speaker_data` dict
(`{'speaker_name': …, 'meta': …, 'is_speaking': True}`; the flag is always
true when stored, so it is left implicit). -/
structure SpeakerState where
  speaker_name : String
  meta : String
deriving DecidableEq, Repr

/-- Pattern type `AudioSpeakerPattern` (synthetic.py:15-21); `speaker_data` is a Python
dict in insertion order.  The NamedTuple annotates `audio_chunk: bytes`, but
every pattern is built by `_load_template_data`, which stores the value
`json.loads` returned for the `audio_chunk` key (synthetic.py:149, 158) —
always a `str`, never `bytes`; the field is therefore a `String` here. -/
structure AudioSpeakerPattern where
  audio_chunk : String
  chunk_index : Int
  speaker_data : List (String × SpeakerState)
  relative_timestamp : ℚ
  duration_sec : ℚ
deriving DecidableEq, Repr

/-- The list comprehension `[SyntheticUser() for _ in range(config.num_users)]`
(synthetic.py:282).  The dataclass declares
`user_id: str = str(uuid.uuid4())` and likewise for `connection_id`
(synthetic.py:32-33): those defaults are evaluated ONCE, when the class is
defined, so every no-argument construction returns the one class-level pair
`(classUserId, classConnId)` — the users are all identical. -/
def mkUsers (classUserId classConnId : String) (num_users : Int) :
    List SyntheticUser :=
  List.replicate num_users.toNat { user_id := classUserId,
                                   connection_id := classConnId }

/-- Inner tiling of `_create_synthetic_speakers` (synthetic.py:257-268) for
one template speaker: `max()` over an empty period list raises `ValueError`,
and a zero pattern duration makes `total_duration / pattern_duration` raise
`ZeroDivisionError`. -/
def synthPeriods (total : ℚ) : List (ℚ × ℚ) → Except PyErr (List (ℚ × ℚ))
  | [] => .error .valueError
  | p :: ps =>
    let pd := (ps.map Prod.snd).foldl max p.2
    if pd = 0 then .error .zeroDivisionError
    else
      let reps := (pyTrunc (total / pd) + 1).toNat
      .ok ((List.range reps).flatMap (fun i =>
        let offset := (i : ℚ) * pd
        (p :: ps).filterMap (fun se =>
          if offset + se.1 < total then some (offset + se.1, min total (offset + se.2))
          else none)))

/-- Worker for `create_synthetic_speakers`; `k` counts speakers built so far
(the fresh name is `Speaker_<k+1>`, i.e. `len(speakers)+1`). -/
def createSpeakersGo (total : ℚ) (k : Nat) :
    List (String × List (ℚ × ℚ)) → Except PyErr (List Speaker)
  | [] => .ok []
  | (_, periods) :: rest =>
    match synthPeriods total periods with
    | .error e => .error e
    | .ok ps =>
      match createSpeakersGo total (k + 1) rest with
      | .error e => .error e
      | .ok tl =>
        .ok ({ name := "Speaker_" ++ toString (k + 1),
               speaking_patterns := ps } :: tl)

/-- Derivation `_create_synthetic_speakers` (synthetic.py:249-275): each synthesized
speaker gets the fresh name `Speaker_<position>`. -/
def create_synthetic_speakers (speaker_patterns : List (String × List (ℚ × ℚ)))
    (duration_minutes : Int) : Except PyErr (List Speaker) :=
  createSpeakersGo ((duration_minutes : ℚ) * 60) 0 speaker_patterns

/-- The speaker record emitted by the synthesizer: a deep copy of one template
speaker state with `speaker_name`, `user_id`, `meeting_id`, `user_timestamp`
overwritten (synthetic.py:339-345). -/
structure SpeakerOut where
  meta : String
  speaker_name : String
  user_id : String
  meeting_id : String
  user_timestamp : ℚ
deriving DecidableEq, Repr

/-- One generated call entry (the HAR-shaped dicts built in
`generate_meeting`): an audio entry carries the `i` query value, or a speaker
entry carries the rewritten speaker record.  `ts` is `startedDateTime`. -/
inductive GenCall where
  | audio (i : Int) (connection_id meeting_id : String) (body : String) (ts : ℚ)
  | speaker (connection_id meeting_id : String) (data : SpeakerOut) (ts : ℚ)
deriving DecidableEq, Repr

/-- Timestamp of a generated entry. -/
def GenCall.ts : GenCall → ℚ
  | .audio _ _ _ _ t => t
  | .speaker _ _ _ t => t

/-- Mutable loop state of `generate_meeting`: `current_time`, `chunk_index`
(shared across ALL users — neither is reset between users). -/
structure GenState where
  current_time : ℚ
  chunk_index : Int
deriving DecidableEq, Repr

/-- Pattern selection of one slot (synthetic.py:300-307): the first pattern
with `|relative_timestamp − t| < chunk_duration`, else the round-robin
fallback `patterns[i % len(patterns)]` — `i % 0` raises `ZeroDivisionError`
when `patterns` is empty. -/
def pickPattern (patterns : List AudioSpeakerPattern) (chunk relative_time : ℚ)
    (i : Nat) : Except PyErr AudioSpeakerPattern :=
  match patterns.find?
      (fun p => decide (|p.relative_timestamp - relative_time| < chunk)) with
  | some p => .ok p
  | none =>
    match patterns.get? (pyMod (i : Int) (patterns.length : Int)).toNat with
    | some p => .ok p
    | none => .error .zeroDivisionError

/-- One chunk slot of `generate_meeting` (synthetic.py:297-365).  The slot
picks a pattern (synthetic.py:300-307) and then builds the audio-entry dict
(synthetic.py:310-325), whose `postData.text` field is
`pattern.audio_chunk.decode('latin1')` (line 321).  But `audio_chunk` always
holds the `str` that `json.loads` produced in `_load_template_data`
(synthetic.py:149, 158), and `str` has no `.decode` method in Python 3, so
building that dict raises `AttributeError` unconditionally — before the entry
is appended (line 326), before the speaker-update check
`i % int(speaker_update_interval_sec / chunk_duration_sec)` (line 329), and
before `current_time` / `chunk_index` advance (lines 364-365).  The
speaker-emission code at synthetic.py:326-362 is therefore unreachable and
has no counterpart here. -/
def genSlot (patterns : List AudioSpeakerPattern) (cfg : SyntheticMeeting)
    (_speakers : List Speaker) (_user : SyntheticUser) (i : Nat)
    (_st : GenState) : Except PyErr (List GenCall × GenState) :=
  match pickPattern patterns cfg.chunk_duration_sec
      ((i : ℚ) * cfg.chunk_duration_sec) i with
  | .error e => .error e
  | .ok _ => .error .attributeError

/-- The `for i in range(chunks_per_user)` loop for one user, threading the
shared state; an exception raised in any slot propagates. -/
def genUserSlots (patterns : List AudioSpeakerPattern) (cfg : SyntheticMeeting)
    (speakers : List Speaker) (user : SyntheticUser) :
    List Nat → GenState → Except PyErr (List GenCall × GenState)
  | [], st => .ok ([], st)
  | i :: is, st =>
    match genSlot patterns cfg speakers user i st with
    | .error e => .error e
    | .ok (calls, st1) =>
      match genUserSlots patterns cfg speakers user is st1 with
      | .error e => .error e
      | .ok (rest, st2) => .ok (calls ++ rest, st2)

/-- The outer `for user in users` loop. -/
def genUsers (patterns : List AudioSpeakerPattern) (cfg : SyntheticMeeting)
    (speakers : List Speaker) (slots : List Nat) :
    List SyntheticUser → GenState → Except PyErr (List GenCall × GenState)
  | [], st => .ok ([], st)
  | u :: us, st =>
    match genUserSlots patterns cfg speakers u slots st with
    | .error e => .error e
    | .ok (calls, st1) =>
      match genUsers patterns cfg speakers slots us st1 with
      | .error e => .error e
      | .ok (rest, st2) => .ok (calls ++ rest, st2)

/-- Choice of speakers (synthetic.py:285-286): a falsy `config.speakers`
(`None` or the empty list) is replaced by template-derived speakers. -/
def resolveSpeakers (speaker_patterns : List (String × List (ℚ × ℚ)))
    (cfg : SyntheticMeeting) : Except PyErr (List Speaker) :=
  match cfg.speakers with
  | none => create_synthetic_speakers speaker_patterns cfg.duration_minutes
  | some [] => create_synthetic_speakers speaker_patterns cfg.duration_minutes
  | some l => .ok l

/-- Synthesizer `SyntheticDataGenerator.generate_meeting` (synthetic.py:277-367).
`patterns` / `speaker_patterns` are the generator's template state;
`classUserId` / `classConnId` are the class-level `SyntheticUser` defaults.
Uncaught exceptions propagate as `.error`; in particular every run that
executes a chunk slot dies with the `AttributeError` of synthetic.py:321
(see `genSlot`), so the only runs that return are those with no slots. -/
def generate_meeting (patterns : List AudioSpeakerPattern)
    (classUserId classConnId : String)
    (speaker_patterns : List (String × List (ℚ × ℚ)))
    (cfg : SyntheticMeeting) : Except PyErr (List GenCall) :=
  let users := mkUsers classUserId classConnId cfg.num_users
  match resolveSpeakers speaker_patterns cfg with
  | .error e => .error e
  | .ok speakers =>
    if cfg.chunk_duration_sec = 0 then .error .zeroDivisionError
    else
      let total_chunks := pyTrunc ((cfg.duration_minutes : ℚ) * 60 / cfg.chunk_duration_sec)
      if cfg.num_users = 0 then .error .zeroDivisionError
      else
        let chunks_per_user := pyFdiv total_chunks cfg.num_users
        match genUsers patterns cfg speakers (List.range chunks_per_user.toNat)
            users { current_time := cfg.start_time, chunk_index := 0 } with
        | .error e => .error e
        | .ok (out, _) => .ok out

/-- The per-meeting generation loop of `generate_test_scenario`
(synthetic.py:456-458): entries of all meetings concatenated in order, any
exception propagating.  (Each meeting is synthesized independently; the
in-place write of `config.speakers` on a falsy field is behaviourally
equivalent to recomputing it, since `_create_synthetic_speakers` is
deterministic.) -/
def generateMeetings (patterns : List AudioSpeakerPattern)
    (classUserId classConnId : String)
    (speaker_patterns : List (String × List (ℚ × ℚ))) :
    List SyntheticMeeting → Except PyErr (List GenCall)
  | [] => .ok []
  | m :: ms =>
    match generate_meeting patterns classUserId classConnId speaker_patterns m with
    | .error e => .error e
    | .ok e =>
      match generateMeetings patterns classUserId classConnId speaker_patterns ms with
      | .error e2 => .error e2
      | .ok r => .ok (e ++ r)

/-- Builder `SyntheticDataGenerator.generate_test_scenario` (synthetic.py:436-471),
minus file output: concatenate all meetings' entries and stable-sort by
`startedDateTime`. -/
def generate_test_scenario (patterns : List AudioSpeakerPattern)
    (classUserId classConnId : String)
    (speaker_patterns : List (String × List (ℚ × ℚ)))
    (meetings : List SyntheticMeeting) : Except PyErr (List GenCall) :=
  match generateMeetings patterns classUserId classConnId speaker_patterns meetings with
  | .error e => .error e
  | .ok entries => .ok (List.insertionSort (fun a b => a.ts ≤ b.ts) entries)

/-! ### Template Pattern Extractor (`SyntheticDataGenerator._load_template_data`) -/

/-- One template-HAR entry as the scan reads it: URL plus the response
`content.text` (absent/empty text → `none`), already JSON-classified. -/
structure TmplEntry where
  url : String
  text : Option JsonBody
deriving DecidableEq, Repr

/-- The mutable `current_pattern` dict. -/
structure Builder where
  audio_chunk : String
  chunk_index : Int
  speakers : List (String × SpeakerState)
  relative_timestamp : ℚ
  duration_sec : ℚ
deriving DecidableEq, Repr

/-- Scan state of `_load_template_data`: collected patterns, the open
`current_pattern`, the accumulated `relative_time`, and the
`speaker_patterns` activity-timeline dict. -/
structure ScanState where
  patterns : List AudioSpeakerPattern
  current : Option Builder
  relTime : ℚ
  speakerTl : List (String × List (ℚ × ℚ))
deriving DecidableEq, Repr

/-- Python dict assignment `d[k] = v`: overwrite in place, else append. -/
def dictInsert (k : String) (v : SpeakerState) :
    List (String × SpeakerState) → List (String × SpeakerState)
  | [] => [(k, v)]
  | (k1, v1) :: rest =>
    if k1 = k then (k, v) :: rest else (k1, v1) :: dictInsert k v rest

/-- Timeline update `self.speaker_patterns[name].append(interval)` (with dict auto-creation). -/
def tlAppend (name : String) (iv : ℚ × ℚ) :
    List (String × List (ℚ × ℚ)) → List (String × List (ℚ × ℚ))
  | [] => [(name, [iv])]
  | (n, l) :: rest =>
    if n = name then (n, l ++ [iv]) :: rest else (n, l) :: tlAppend name iv rest

/-- Closing a builder into a stored `AudioSpeakerPattern`. -/
def builderToPattern (b : Builder) : AudioSpeakerPattern :=
  { audio_chunk := b.audio_chunk, chunk_index := b.chunk_index,
    speaker_data := b.speakers, relative_timestamp := b.relative_timestamp,
    duration_sec := b.duration_sec }

/-- The flush `if current_pattern and current_pattern.get('speakers'): append`
(synthetic.py:134-143 and 228-237).  The builder itself is NOT cleared. -/
def flushCurrent (st : ScanState) : ScanState :=
  match st.current with
  | some b =>
    if b.speakers = [] then st
    else { st with patterns := st.patterns ++ [builderToPattern b] }
  | none => st

/-- Activity test `sum(1 for b in meta_bits if b == '1') / max(len(meta_bits), 1) > 0.5`
(synthetic.py:197), as the exact rational comparison `2·ones > max(len,1)`. -/
def isSpeakingMeta (meta : String) : Bool :=
  2 * (meta.toList.filter (fun ch => ch = '1')).length > max meta.toList.length 1

/-- Processing of one decoded speaker pair-list against the open builder
(synthetic.py:190-212): entries shorter than 2 are skipped; an active speaker
is written into the builder's `speakers` dict and an interval
`(relative_time, relative_time + duration)` is appended to its timeline. -/
def addSpeakerItems (relTime : ℚ) :
    List (List String) → Builder → List (String × List (ℚ × ℚ)) →
    Builder × List (String × List (ℚ × ℚ))
  | [], b, tl => (b, tl)
  | item :: rest, b, tl =>
    if item.length ≥ 2 then
      let name := item.headD ""
      let meta := item.getD 1 ""
      if isSpeakingMeta meta then
        addSpeakerItems relTime rest
          { b with speakers := dictInsert name ⟨name, meta⟩ b.speakers }
          (tlAppend name (relTime, relTime + b.duration_sec) tl)
      else
        addSpeakerItems relTime rest b tl
    else
      addSpeakerItems relTime rest b tl

/-- Scan step for one template entry (synthetic.py:80-221).  URL
classification is by bare substring (`'audio' in url`, then
`'speakers' in url`); entries without usable text are skipped.  An audio
entry first flushes a closed pattern, then (on a well-formed body) opens a
new builder with the fixed nominal duration 0.5 s and advances
`relative_time`; a malformed/chunk-less audio body leaves the old builder in
place.  A speaker entry is processed only while a builder is open.
(A speaker body decoding to a JSON object — where Python would iterate the
dict's key strings — is not modelled; no claim touches that path.) -/
def processTmplEntry (st : ScanState) (e : TmplEntry) : ScanState :=
  if containsSub e.url "audio" then
    match e.text with
    | none => st
    | some t =>
      let st1 := flushCurrent st
      match t with
      | .audioDict (some c) ci =>
        { st1 with
          current := some { audio_chunk := c, chunk_index := ci.getD 0,
                            speakers := [], relative_timestamp := st1.relTime,
                            duration_sec := 1/2 },
          relTime := st1.relTime + 1/2 }
      | _ => st1
  else if containsSub e.url "speakers" then
    match e.text, st.current with
    | some (.speakerList items), some b =>
      let (b1, tl1) := addSpeakerItems st.relTime items b st.speakerTl
      { st with current := some b1, speakerTl := tl1 }
    | _, _ => st
  else st

/-- Loader `_load_template_data` (synthetic.py:56-247): scan all entries, flush the
last open pattern, and raise `ValueError` when no pattern was found. -/
def load_template_data (entries : List TmplEntry) :
    Except String (List AudioSpeakerPattern × List (String × List (ℚ × ℚ))) :=
  let st := flushCurrent (entries.foldl processTmplEntry
    { patterns := [], current := none, relTime := 0, speakerTl := [] })
  if st.patterns = [] then
    .error "No valid audio-speaker patterns found in template data"
  else
    .ok (st.patterns, st.speakerTl)

/-! ### Derived notions used by the claims -/

/-- Fold describing how `previous_time` evolves through executed steps:
it advances to a step's timestamp exactly when that step succeeded. -/
def prevFold (prev : ℚ) (steps : List Step) : ℚ :=
  steps.foldl (fun p s => if s.ok then s.call.ts else p) prev

/-! ### Concrete demonstration data for the witnesses -/

/-- A loaded audio call on connection `A` (replay demos). -/
def aCall (i : Int) (t : ℚ) : LoadedCall :=
  .audio { chunk_index := i, connection_id := "A", meeting_id := "m",
           timestamp := t, body := none }

/-- A raw audio HAR entry for connection `c` with index `i` at time `t`. -/
def mkAudioEntry (c : String) (i : Int) (t : ℚ) : RawEntry :=
  { url := "https://h/api/v1/extension/audio",
    query := [("i", toString i), ("connection_id", c), ("meeting_id", "m")],
    timestamp := t, body := none }

/-- A template pattern with one stored speaker state. -/
def demoPattern : AudioSpeakerPattern :=
  { audio_chunk := "AC", chunk_index := 0,
    speaker_data := [("T", { speaker_name := "T", meta := "1111" })],
    relative_timestamp := 0, duration_sec := 1/2 }

/-- A small well-behaved meeting config: 1 minute, 2 users, 30-second chunks,
speaker updates every chunk. -/
def demoMeeting : SyntheticMeeting :=
  { meeting_id := "M", duration_minutes := 1, num_users := 2,
    speakers := some [{ name := "S", speaking_patterns := [(0, 100)] }],
    chunk_duration_sec := 30, speaker_update_interval_sec := 30,
    start_time := 0 }

/-- A meeting with the declared dataclass defaults
`chunk_duration_sec = 1.0`, `speaker_update_interval_sec = 0.5`
(synthetic.py:42-43). -/
def demoMeetingDefaults : SyntheticMeeting :=
  { meeting_id := "M", duration_minutes := 30, num_users := 2,
    speakers := some [{ name := "S", speaking_patterns := [(0, 100)] }],
    chunk_duration_sec := 1, speaker_update_interval_sec := 1/2,
    start_time := 0 }

/-- The defaults meeting with zero duration: `total_chunks = int(0/1.0) = 0`,
so no chunk slot ever runs and `generate_meeting` returns `[]`. -/
def demoMeetingZeroSlots : SyntheticMeeting :=
  { demoMeetingDefaults with duration_minutes := 0 }

/-- A speakers HAR entry with `meeting_id` and a JSON-decodable pair-list
body, but no `connection_id` (per the data model, a valid global update). -/
def globalSpeakerEntry : RawEntry :=
  { url := "https://h/api/v1/extension/speakers",
    query := [("meeting_id", "m1")], timestamp := 0,
    body := some (.speakerList [["Alice", "1111"]]) }

/-- Template: one audio entry, then one speaker entry with meta `"1111"`. -/
def c7entries : List TmplEntry :=
  [ { url := "https://h/api/v1/extension/audio",
      text := some (.audioDict (some "CHUNK") (some 0)) },
    { url := "https://h/api/v1/extension/speakers",
      text := some (.speakerList [["Alice", "1111"]]) } ]

/-- A template consisting of a single speaker entry (no audio entries). -/
def c7speakerOnly : List TmplEntry :=
  [ { url := "https://h/api/v1/extension/speakers",
      text := some (.speakerList [["Alice", "1111"]]) } ]

/-- A speakers HAR entry carrying both `connection_id` and `meeting_id`. -/
def keptSpeakerEntry : RawEntry :=
  { url := "https://h/api/v1/extension/speakers",
    query := [("meeting_id", "m1"), ("connection_id", "c1")], timestamp := 0,
    body := some (.speakerList [["Alice", "1111"]]) }

/-- A copy of `demoMeeting` starting 10 s later (overlapping time range). -/
def demoMeetingLater : SyntheticMeeting :=
  { demoMeeting with start_time := 10 }

/-! ### Helper lemmas -/

theorem replayLoop_map_call (cfg : RConfig) (fails : Nat → Bool) :
    ∀ (calls : List LoadedCall) (k : Nat) (prev : ℚ),
      (replayLoop cfg fails k prev calls).map Step.call = calls := by
  intro calls
  induction calls with
  | nil => intro k prev; rfl
  | cons c rest ih => intro k prev; simp [replayLoop, ih]

theorem replayLoop_length (cfg : RConfig) (fails : Nat → Bool)
    (calls : List LoadedCall) (k : Nat) (prev : ℚ) :
    (replayLoop cfg fails k prev calls).length = calls.length := by
  have h := replayLoop_map_call cfg fails calls k prev
  calc (replayLoop cfg fails k prev calls).length
      = ((replayLoop cfg fails k prev calls).map Step.call).length := by
        rw [List.length_map]
    _ = calls.length := by rw [h]

/-- Delay of the `j`-th step: computed from `previous_time` as evolved through
the earlier steps (advancing only on success). -/
theorem replayLoop_delay (cfg : RConfig) (fails : Nat → Bool) :
    ∀ (calls : List LoadedCall) (k : Nat) (prev : ℚ) (j : Nat) (s : Step),
      (replayLoop cfg fails k prev calls)[j]? = some s →
      s.delay = calculate_delay cfg s.call.ts
        (prevFold prev ((replayLoop cfg fails k prev calls).take j)) := by
  intro calls
  induction calls with
  | nil => intro k prev j s h; simp [replayLoop] at h
  | cons c rest ih =>
    intro k prev j s h
    cases j with
    | zero =>
      simp [replayLoop] at h
      subst h
      simp [prevFold]
    | succ j =>
      simp only [replayLoop, List.getElem?_cons_succ, List.take_succ_cons] at h ⊢
      have h2 := ih (k + 1) (if !fails k then c.ts else prev) j s h
      simpa [prevFold] using h2

/-! ### Claim theorems -/

/-- C4: for every pair of consecutive records (here: when every dispatch
succeeds, so that `previous_time` tracks the previous record), the computed
inter-call delay equals `max(0, (current_ts − previous_ts) × time_scale)`
when `PRESERVE_TIMING` is enabled and `0` when it is disabled. -/
theorem C4_inter_call_delay (cfg : RConfig) :
    ∀ (calls : List LoadedCall) (k : Nat) (prev : ℚ) (j : Nat)
      (c0 c1 : LoadedCall) (s : Step),
      calls[j]? = some c0 → calls[j + 1]? = some c1 →
      (replayLoop cfg (fun _ => false) k prev calls)[j + 1]? = some s →
      s.delay = if cfg.preserve_timing then max 0 ((c1.ts - c0.ts) * cfg.time_scale)
                else 0 := by
  intro calls
  induction calls with
  | nil => intro k prev j c0 c1 s h0 h1 hs; simp at h0
  | cons c rest ih =>
    intro k prev j c0 c1 s h0 h1 hs
    cases j with
    | zero =>
      simp only [List.getElem?_cons_zero, Option.some_inj] at h0
      subst h0
      simp only [List.getElem?_cons_succ, List.getElem?_cons_zero] at h1
      cases rest with
      | nil => simp at h1
      | cons d rest2 =>
        simp only [List.getElem?_cons_zero, Option.some_inj] at h1
        subst h1
        simp only [replayLoop, List.getElem?_cons_succ, List.getElem?_cons_zero,
          Bool.not_false, if_pos, Option.some_inj] at hs
        subst hs
        by_cases hp : cfg.preserve_timing <;> simp [calculate_delay, hp]
    | succ j =>
      simp only [List.getElem?_cons_succ] at h0 h1
      simp only [replayLoop, Bool.not_false, if_pos, List.getElem?_cons_succ] at hs
      exact ih (k + 1) c.ts j c0 c1 s h0 h1 hs

/-- Witness for C4 at two concrete runs: timestamps 10 s apart with
`preserve_timing = true`, `time_scale = 2.0` give delay `20`; with
`preserve_timing = false` the delay is `0`. -/
theorem C4_inter_call_delay_witness :
    ((20 : ℚ) = if (RConfig.mk true 2).preserve_timing then
        max 0 (((aCall 1 10).ts - (aCall 0 0).ts) * (RConfig.mk true 2).time_scale)
      else 0)
    ∧ ((0 : ℚ) = if (RConfig.mk false 2).preserve_timing then
        max 0 (((aCall 1 10).ts - (aCall 0 0).ts) * (RConfig.mk false 2).time_scale)
      else 0) :=
  ⟨C4_inter_call_delay (RConfig.mk true 2) [aCall 0 0, aCall 1 10] 0 0 0
      (aCall 0 0) (aCall 1 10) { call := aCall 1 10, delay := 20, ok := true }
      (by decide) (by decide)
      (by simp [replayLoop, calculate_delay, aCall, LoadedCall.ts]; norm_num),
   C4_inter_call_delay (RConfig.mk false 2) [aCall 0 0, aCall 1 10] 0 0 0
      (aCall 0 0) (aCall 1 10) { call := aCall 1 10, delay := 0, ok := true }
      (by decide) (by decide)
      (by simp [replayLoop, calculate_delay, aCall, LoadedCall.ts])⟩

/-- C10: in the replay loop (with `previous_time` initialised to the first
record's timestamp), the delay of the `j`-th step is computed from the
timestamp of the last successfully dispatched earlier record — `previous_time`
advances only on success, so a failed record's time gap is folded into the
following delay. -/
theorem C10_prev_time_only_on_success (cfg : RConfig) (fails : Nat → Bool)
    (c0 : LoadedCall) (rest : List LoadedCall) (j : Nat) (s : Step) :
    (replayLoop cfg fails 0 c0.ts (c0 :: rest))[j]? = some s →
    s.delay = calculate_delay cfg s.call.ts
      (prevFold c0.ts ((replayLoop cfg fails 0 c0.ts (c0 :: rest)).take j)) :=
  replayLoop_delay cfg fails (c0 :: rest) 0 c0.ts j s

/-- Witness for C10: three records at 0 s, 10 s, 20 s where the second send
fails — the third delay is `calculate_delay 20 0 = 20`, measured from the
first (last successful) record, not from the failed one. -/
theorem C10_prev_time_only_on_success_witness :
    (20 : ℚ) = calculate_delay (RConfig.mk true 1)
      (Step.call { call := aCall 2 20, delay := 20, ok := true }).ts
      (prevFold (aCall 0 0).ts
        ((replayLoop (RConfig.mk true 1) (fun k => k == 1) 0 (aCall 0 0).ts
          [aCall 0 0, aCall 1 10, aCall 2 20]).take 2)) :=
  C10_prev_time_only_on_success (RConfig.mk true 1) (fun k => k == 1)
    (aCall 0 0) [aCall 1 10, aCall 2 20] 2
    { call := aCall 2 20, delay := 20, ok := true }
    (by simp [replayLoop, calculate_delay, aCall, LoadedCall.ts])

/-- C2 (code bug): `generate_meeting` builds its users as
`[SyntheticUser() for _ in range(num_users)]`, but the dataclass defaults
`str(uuid.uuid4())` are evaluated once at class-definition time, so with
`num_users = 2` both users carry the identical class-level connection id (and
user id) — they are NOT pairwise distinct as the spec requires. -/
theorem C2_users_share_identity (u c : String) :
    (mkUsers u c 2).map SyntheticUser.connection_id = [c, c] ∧
    ¬ List.Pairwise
        (fun a b : SyntheticUser => a.connection_id ≠ b.connection_id)
        (mkUsers u c 2) := by
  constructor
  · simp [mkUsers, List.replicate]
  · simp [mkUsers, List.replicate, List.pairwise_cons]

/-- C6 counterexample: a speaker entry whose `meeting_id` is present and whose
body JSON-decodes to a (name, meta_bits) pair list, but whose `connection_id`
query parameter is absent — per the claim it must NOT be dropped (a valid
global speaker update), yet the replay loading loop drops it. -/
theorem C6_global_speaker_dropped :
    qget globalSpeakerEntry.query "meeting_id" = some "m1" ∧
    globalSpeakerEntry.body = some (.speakerList [["Alice", "1111"]]) ∧
    loadSpeakerEntry globalSpeakerEntry = none := by
  refine ⟨by decide, by decide, by decide⟩

/-- C6 (amended): in the replay loading loop a speaker entry is kept iff its
`connection_id` query parameter is present AND its `meeting_id` query
parameter is present and non-empty; the body is not JSON-decoded during
loading at all (its decodability — `e.body` — plays no role in the iff). -/
theorem C6_speaker_load_amended (e : RawEntry) :
    (loadSpeakerEntry e).isSome = true ↔
      (qhas e.query "connection_id" = true ∧
       ∃ m, qget e.query "meeting_id" = some m ∧ m ≠ "") := by
  unfold loadSpeakerEntry SpeakersCall.from_har_entry
  by_cases hc : qhas e.query "connection_id" = true
  · rw [if_pos hc]
    cases hm : qget e.query "meeting_id" with
    | none => simp [hm, hc]
    | some m =>
      by_cases hme : m = ""
      · subst hme; simp [hm, hc]
      · simp [hm, hc, hme]
  · rw [if_neg hc]
    simp [hc]

/-- Witness for C6 (amended): an entry with both parameters present is kept. -/
theorem C6_speaker_load_amended_witness :
    (loadSpeakerEntry keptSpeakerEntry).isSome = true :=
  (C6_speaker_load_amended keptSpeakerEntry).mpr
    ⟨by decide, "m1", by decide, by decide⟩

/-- Scan helper: entries none of which classify as audio leave the scan state
untouched (a speaker entry needs an open `current_pattern`, which only an
audio entry creates). -/
theorem foldl_processTmpl_no_audio :
    ∀ (entries : List TmplEntry) (st : ScanState), st.current = none →
      (∀ e ∈ entries, containsSub e.url "audio" = false) →
      entries.foldl processTmplEntry st = st := by
  intro entries
  induction entries with
  | nil => intro st _ _; rfl
  | cons e rest ih =>
    intro st hcur hall
    have he : containsSub e.url "audio" = false := hall e (by simp)
    have hstep : processTmplEntry st e = st := by
      unfold processTmplEntry
      rw [he]
      simp only [Bool.false_eq_true, if_false]
      split
      · rw [hcur]
        cases e.text with
        | none => simp
        | some t => cases t <;> simp
      · rfl
    rw [List.foldl_cons, hstep]
    exact ih st hcur (fun x hx => hall x (by simp [hx]))

/-- C7: the Pattern Extractor on a template with one audio entry followed by
one speaker entry with meta `"1111"` (active) yields exactly one pattern and
one activity interval for that speaker of length `1/2` — the nominal
per-chunk duration (`duration_sec = 0.5`); and on any template with zero
audio entries it fails with the no-patterns `ValueError`. -/
theorem C7_pattern_extractor :
    load_template_data c7entries =
      .ok ([{ audio_chunk := "CHUNK", chunk_index := 0,
              speaker_data := [("Alice", { speaker_name := "Alice", meta := "1111" })],
              relative_timestamp := 0, duration_sec := 1/2 }],
           [("Alice", [(1/2, 1/2 + 1/2)])])
    ∧ ∀ entries : List TmplEntry,
        (∀ e ∈ entries, containsSub e.url "audio" = false) →
        load_template_data entries =
          .error "No valid audio-speaker patterns found in template data" := by
  constructor
  · simp +decide [load_template_data, c7entries, processTmplEntry, containsSub,
      flushCurrent, addSpeakerItems, isSpeakingMeta, dictInsert, tlAppend,
      builderToPattern]
  · intro entries h
    unfold load_template_data
    rw [foldl_processTmpl_no_audio entries _ rfl h]
    rfl

/-- Witness for C7: a template containing only a speaker entry (zero audio
entries) fails with the no-patterns error. -/
theorem C7_pattern_extractor_witness :
    load_template_data c7speakerOnly =
      .error "No valid audio-speaker patterns found in template data" :=
  C7_pattern_extractor.2 c7speakerOnly (by decide)

theorem mem_firstKeysGo :
    ∀ (l seen : List String) (x : String),
      x ∈ firstKeysGo seen l ↔ (x ∈ l ∧ x ∉ seen) := by
  intro l
  induction l with
  | nil => intro seen x; simp [firstKeysGo]
  | cons k ks ih =>
    intro seen x
    unfold firstKeysGo
    by_cases hk : k ∈ seen
    · rw [if_pos hk, ih]
      simp only [List.mem_cons]
      constructor
      · rintro ⟨h1, h2⟩; exact ⟨Or.inr h1, h2⟩
      · rintro ⟨h1 | h1, h2⟩
        · subst h1; exact absurd hk h2
        · exact ⟨h1, h2⟩
    · rw [if_neg hk]
      simp only [List.mem_cons, ih]
      constructor
      · rintro (h | ⟨h1, h2⟩)
        · subst h; exact ⟨Or.inl rfl, hk⟩
        · exact ⟨Or.inr h1, fun hx => h2 (Or.inr hx)⟩
      · rintro ⟨h1 | h1, h2⟩
        · subst h1; exact Or.inl rfl
        · by_cases hxk : x = k
          · exact Or.inl hxk
          · exact Or.inr ⟨h1, by simp [hxk, h2]⟩

theorem mem_firstKeys (l : List String) (x : String) :
    x ∈ firstKeys l ↔ x ∈ l := by
  unfold firstKeys
  rw [mem_firstKeysGo]
  simp

theorem sortByIdx_perm (l : List AudioCall) : (sortByIdx l).Perm l :=
  List.perm_insertionSort _ l

theorem sortByIdx_head_min (l : List AudioCall) (a : AudioCall)
    (rest : List AudioCall) (h : sortByIdx l = a :: rest) :
    a ∈ l ∧ ∀ b ∈ l, a.chunk_index ≤ b.chunk_index := by
  have hperm := sortByIdx_perm l
  rw [h] at hperm
  refine ⟨hperm.subset (List.mem_cons_self a rest), ?_⟩
  haveI ht : IsTotal AudioCall (fun x y : AudioCall => x.chunk_index ≤ y.chunk_index) :=
    ⟨fun a b => Int.le_total _ _⟩
  haveI htr : IsTrans AudioCall (fun x y : AudioCall => x.chunk_index ≤ y.chunk_index) :=
    ⟨fun a b c hab hbc => le_trans hab hbc⟩
  have hsorted := List.sorted_insertionSort
    (fun x y : AudioCall => x.chunk_index ≤ y.chunk_index) l
  rw [show List.insertionSort (fun x y : AudioCall => x.chunk_index ≤ y.chunk_index) l
        = sortByIdx l from rfl, h] at hsorted
  intro b hb
  rcases List.mem_cons.mp (hperm.symm.subset hb) with hba | hbr
  · subst hba; exact le_refl _
  · exact (List.sorted_cons.mp hsorted).1 b hbr

theorem sortByIdx_ne_nil (l : List AudioCall) (hl : l ≠ []) : sortByIdx l ≠ [] := by
  intro h
  have hperm := sortByIdx_perm l
  rw [h] at hperm
  exact hl hperm.symm.eq_nil

/-- Soundness of the validator error: the reported pair is a connection
together with its lowest chunk index, which is non-zero. -/
theorem validateLoop_error_min (audio : List AudioCall) :
    ∀ (keys : List String) (c : String) (i : Int),
      validateLoop audio keys = .error (c, i) →
      i ∈ (groupOf audio c).map (fun a => a.chunk_index)
      ∧ (∀ j ∈ (groupOf audio c).map (fun a => a.chunk_index), i ≤ j)
      ∧ i ≠ 0 := by
  intro keys
  induction keys with
  | nil => intro c i h; simp [validateLoop] at h
  | cons k ks ih =>
    intro c i h
    unfold validateLoop at h
    cases hs : sortByIdx (groupOf audio k) with
    | nil => simp only [hs] at h; exact ih c i h
    | cons a rest =>
      simp only [hs] at h
      by_cases ha : a.chunk_index ≠ 0
      · rw [if_pos ha] at h
        have hck : k = c ∧ a.chunk_index = i := by
          have := Except.error.inj h
          exact ⟨congrArg Prod.fst this, congrArg Prod.snd this⟩
        obtain ⟨hk, hi⟩ := hck
        subst hk; subst hi
        obtain ⟨hmem, hmin⟩ := sortByIdx_head_min _ a rest hs
        refine ⟨List.mem_map.mpr ⟨a, hmem, rfl⟩, ?_, ha⟩
        intro j hj
        obtain ⟨b, hb, hbj⟩ := List.mem_map.mp hj
        exact hbj ▸ hmin b hb
      · rw [if_neg ha] at h; exact ih c i h

/-- Completeness of the validator error: some listed connection whose sorted
group starts with a non-zero index forces an error. -/
theorem validateLoop_error_of_bad (audio : List AudioCall) :
    ∀ (keys : List String),
      (∃ c ∈ keys, ∃ a rest, sortByIdx (groupOf audio c) = a :: rest
        ∧ a.chunk_index ≠ 0) →
      ∃ e, validateLoop audio keys = .error e := by
  intro keys
  induction keys with
  | nil => rintro ⟨c, hc, _⟩; simp at hc
  | cons k ks ih =>
    rintro ⟨c, hc, a, rest, hs, ha⟩
    unfold validateLoop
    cases hk : sortByIdx (groupOf audio k) with
    | nil =>
      simp only [hk]
      apply ih
      refine ⟨c, ?_, a, rest, hs, ha⟩
      rcases List.mem_cons.mp hc with h1 | h1
      · subst h1; rw [hk] at hs; exact absurd hs (by simp)
      · exact h1
    | cons b rest2 =>
      simp only [hk]
      by_cases hb : b.chunk_index ≠ 0
      · exact ⟨(k, b.chunk_index), by rw [if_pos hb]⟩
      · rw [if_neg hb]
        apply ih
        push_neg at hb
        refine ⟨c, ?_, a, rest, hs, ha⟩
        rcases List.mem_cons.mp hc with h1 | h1
        · subst h1
          rw [hk] at hs
          have : b = a := (List.cons.inj hs).1
          exact absurd (this ▸ hb) ha
        · exact h1

/-- C3: if some connection's lowest loaded audio chunk index is not 0, the
Chunk Sequence Validator raises an error carrying a connection and its
(non-zero) lowest index, and the replay run returns having dispatched
nothing: no steps executed, nothing sent. -/
theorem C3_bad_first_index_aborts (cfg : RConfig) (fails : Nat → Bool)
    (entries : List RawEntry) (all : List LoadedCall) (r : ReplayResult)
    (hload : loadCalls entries = some all)
    (hr : replay_calls cfg fails entries = some r)
    (hbad : ∃ c i,
      i ∈ (groupOf (audioOf (sortByTs all)) c).map (fun a => a.chunk_index)
      ∧ (∀ j ∈ (groupOf (audioOf (sortByTs all)) c).map (fun a => a.chunk_index), i ≤ j)
      ∧ i ≠ 0) :
    r.steps = [] ∧ r.sent = [] ∧
    ∃ c i, r.validationError = some (c, i) ∧ i ≠ 0 ∧
      i ∈ (groupOf (audioOf (sortByTs all)) c).map (fun a => a.chunk_index) ∧
      ∀ j ∈ (groupOf (audioOf (sortByTs all)) c).map (fun a => a.chunk_index), i ≤ j := by
  unfold replay_calls at hr
  rw [hload] at hr
  simp only [Option.pure_def, Option.bind_eq_bind, Option.some_bind] at hr
  obtain ⟨c, i, hmem, hmin, hne⟩ := hbad
  cases hs : sortByTs all with
  | nil =>
    rw [hs] at hmem
    simp [audioOf, groupOf] at hmem
  | cons s0 srest =>
    simp only [hs] at hr
    rw [hs] at hmem hmin
    have hgrp : groupOf (audioOf (s0 :: srest)) c ≠ [] := by
      intro hnil
      rw [hnil] at hmem
      simp at hmem
    have hbad2 : ∃ c ∈ firstKeys ((audioOf (s0 :: srest)).map
        (fun a => a.connection_id)), ∃ a rest,
        sortByIdx (groupOf (audioOf (s0 :: srest)) c) = a :: rest
        ∧ a.chunk_index ≠ 0 := by
      cases hsi : sortByIdx (groupOf (audioOf (s0 :: srest)) c) with
      | nil => exact absurd hsi (sortByIdx_ne_nil _ hgrp)
      | cons a rest =>
        refine ⟨c, ?_, a, rest, hsi, ?_⟩
        · rw [mem_firstKeys]
          obtain ⟨b, hb, hbc⟩ := List.mem_map.mp hmem
          obtain hb2 := List.mem_filter.mp hb
          refine List.mem_map.mpr ⟨b, hb2.1, by simpa using hb2.2⟩
        · obtain ⟨hamem, hamin⟩ := sortByIdx_head_min _ a rest hsi
          have h1 : a.chunk_index ∈ (groupOf (audioOf (s0 :: srest)) c).map
              (fun a => a.chunk_index) := List.mem_map.mpr ⟨a, hamem, rfl⟩
          have h2 := hmin _ h1
          obtain ⟨b, hb, hbi⟩ := List.mem_map.mp hmem
          have h3 : a.chunk_index ≤ i := hbi ▸ hamin b hb
          have : a.chunk_index = i := le_antisymm h3 h2
          exact this ▸ hne
    obtain ⟨e, he⟩ := validateLoop_error_of_bad _ _ hbad2
    have hve : validateAudioChunks (audioOf (s0 :: srest)) = .error e := he
    simp only [hve, Option.some_inj] at hr
    subst hr
    obtain ⟨c1, i1⟩ := e
    obtain ⟨hm1, hm2, hm3⟩ := validateLoop_error_min _ _ c1 i1 he
    exact ⟨rfl, rfl, c1, i1, rfl, hm3, hm1, hm2⟩

/-- Witness for C3: the end-to-end scenario of the spec — audio indices
`[1, 2, 3]` on connection `B` (missing 0) abort the run with the error naming
`B` and index 1, and nothing is dispatched. -/
theorem C3_bad_first_index_aborts_witness :
    ∃ r : ReplayResult,
      replay_calls (RConfig.mk true 1) (fun _ => false)
        [mkAudioEntry "B" 1 0, mkAudioEntry "B" 2 1, mkAudioEntry "B" 3 2]
        = some r
      ∧ r.steps = [] ∧ r.sent = [] ∧ r.validationError = some ("B", 1) := by
  refine ⟨{ validationError := some ("B", 1), steps := [], sent := [],
            report := [] }, by decide, ?_⟩
  have h := C3_bad_first_index_aborts (RConfig.mk true 1) (fun _ => false)
    [mkAudioEntry "B" 1 0, mkAudioEntry "B" 2 1, mkAudioEntry "B" 3 2]
    [.audio { chunk_index := 1, connection_id := "B", meeting_id := "m",
              timestamp := 0, body := none },
     .audio { chunk_index := 2, connection_id := "B", meeting_id := "m",
              timestamp := 1, body := none },
     .audio { chunk_index := 3, connection_id := "B", meeting_id := "m",
              timestamp := 2, body := none }]
    { validationError := some ("B", 1), steps := [], sent := [], report := [] }
    (by decide) (by decide) ⟨"B", 1, by decide, by decide, by decide⟩
  exact ⟨h.1, h.2.1, rfl⟩

theorem auditReport_mem_iff (audio : List AudioCall)
    (sent : List (String × Int)) (c : String) :
    (∃ m, (c, m) ∈ auditReport audio sent) ↔
      (c ∈ firstKeys (audio.map (fun a => a.connection_id))
       ∧ missingOf audio sent c ≠ []) := by
  unfold auditReport
  constructor
  · rintro ⟨m, hm⟩
    obtain ⟨k, hk, hf⟩ := List.mem_filterMap.mp hm
    by_cases h0 : missingOf audio sent k = []
    · rw [if_pos h0] at hf; cases hf
    · rw [if_neg h0] at hf
      have h1 := Option.some_inj.mp hf
      have hkc : k = c := congrArg Prod.fst h1
      subst hkc
      exact ⟨hk, h0⟩
  · rintro ⟨hc, hne⟩
    exact ⟨missingOf audio sent c,
      List.mem_filterMap.mpr ⟨c, hc, by rw [if_neg hne]⟩⟩

theorem missingOf_ne_nil_iff (audio : List AudioCall)
    (sent : List (String × Int)) (c : String) :
    missingOf audio sent c ≠ [] ↔
      ∃ k, k < (groupOf audio c).length ∧ (c, (k : Int)) ∉ sent := by
  unfold missingOf
  constructor
  · intro h
    obtain ⟨x, hx⟩ := List.exists_mem_of_ne_nil _ h
    obtain ⟨hxm, hxp⟩ := List.mem_filter.mp hx
    obtain ⟨k, hkr, hkx⟩ := List.mem_map.mp hxm
    refine ⟨k, List.mem_range.mp hkr, ?_⟩
    have h2 := of_decide_eq_true hxp
    rw [← hkx] at h2
    simpa using h2
  · rintro ⟨k, hk, hks⟩
    intro hnil
    have hmem : ((k : Int)) ∈ ((List.range (groupOf audio c).length).map
        Int.ofNat).filter (fun i => decide ((c, i) ∉ sent)) :=
      List.mem_filter.mpr ⟨List.mem_map.mpr ⟨k, List.mem_range.mpr hk, rfl⟩,
        decide_eq_true hks⟩
    rw [hnil] at hmem
    cases hmem

/-- C5: per-call send failures never abort the replay loop — with any pattern
of Sender failures, every loaded record still gets a dispatch step (in the
sorted order), and the closing audit reports a connection exactly when some
expected chunk index of that connection is absent from the sent set. -/
theorem C5_per_call_failures_contained (cfg : RConfig) (fails : Nat → Bool)
    (entries : List RawEntry) (all : List LoadedCall) (r : ReplayResult)
    (hload : loadCalls entries = some all)
    (hr : replay_calls cfg fails entries = some r)
    (hok : r.validationError = none) :
    r.steps.map Step.call = sortByTs all ∧
    r.steps.length = all.length ∧
    ∀ c, (∃ m, (c, m) ∈ r.report) ↔
      ((∃ a ∈ audioOf (sortByTs all), a.connection_id = c) ∧
       ∃ k, k < (groupOf (audioOf (sortByTs all)) c).length
         ∧ (c, (k : Int)) ∉ r.sent) := by
  unfold replay_calls at hr
  rw [hload] at hr
  simp only [Option.pure_def, Option.bind_eq_bind, Option.some_bind] at hr
  cases hs : sortByTs all with
  | nil =>
    simp only [hs, Option.some_inj] at hr
    subst hr
    have hall : all = [] := by
      have hperm := List.perm_insertionSort
        (fun a b : LoadedCall => a.ts ≤ b.ts) all
      rw [show List.insertionSort (fun a b : LoadedCall => a.ts ≤ b.ts) all
            = sortByTs all from rfl, hs] at hperm
      exact hperm.symm.eq_nil
    refine ⟨by simp, by simp [hall], ?_⟩
    intro c
    constructor
    · rintro ⟨m, hm⟩; cases hm
    · rintro ⟨⟨a, ha, _⟩, _⟩
      simp [audioOf] at ha
  | cons s0 srest =>
    simp only [hs] at hr
    cases hv : validateAudioChunks (audioOf (s0 :: srest)) with
    | error e =>
      simp only [hv, Option.some_inj] at hr
      subst hr
      cases hok
    | ok u =>
      simp only [hv, Option.some_inj] at hr
      subst hr
      refine ⟨replayLoop_map_call cfg fails (s0 :: srest) 0 s0.ts, ?_, ?_⟩
      · show (replayLoop cfg fails 0 s0.ts (s0 :: srest)).length = all.length
        calc (replayLoop cfg fails 0 s0.ts (s0 :: srest)).length
            = (s0 :: srest).length :=
              replayLoop_length cfg fails (s0 :: srest) 0 s0.ts
          _ = (sortByTs all).length := by rw [hs]
          _ = all.length :=
              (List.perm_insertionSort (fun a b : LoadedCall => a.ts ≤ b.ts)
                all).length_eq
      · intro c
        show (∃ m, (c, m) ∈ auditReport (audioOf (s0 :: srest))
            (sentOf (replayLoop cfg fails 0 s0.ts (s0 :: srest)))) ↔
          ((∃ a ∈ audioOf (s0 :: srest), a.connection_id = c) ∧
           ∃ k, k < (groupOf (audioOf (s0 :: srest)) c).length
             ∧ (c, (k : Int)) ∉ sentOf (replayLoop cfg fails 0 s0.ts (s0 :: srest)))
        rw [auditReport_mem_iff, missingOf_ne_nil_iff, mem_firstKeys,
          List.mem_map]

/-- Witness for C5: three chunks `[0, 1, 2]` on connection `A` with the
second send failing — all three records get steps, and the audit reports
connection `A` (index 1 was never sent). -/
theorem C5_per_call_failures_contained_witness :
    ∃ r : ReplayResult,
      replay_calls (RConfig.mk true 1) (fun k => k == 1)
        [mkAudioEntry "A" 0 0, mkAudioEntry "A" 1 1, mkAudioEntry "A" 2 2]
        = some r
      ∧ r.steps.length = 3 ∧ (∃ m, ("A", m) ∈ r.report) := by
  refine ⟨{ validationError := none,
            steps := [⟨.audio ⟨0, "A", "m", 0, none⟩, 0, true⟩,
                      ⟨.audio ⟨1, "A", "m", 1, none⟩, 1, false⟩,
                      ⟨.audio ⟨2, "A", "m", 2, none⟩, 2, true⟩],
            sent := [("A", 0), ("A", 2)],
            report := [("A", [1])] }, by with_unfolding_all decide, ?_, ?_⟩
  · have h := C5_per_call_failures_contained (RConfig.mk true 1)
      (fun k => k == 1)
      [mkAudioEntry "A" 0 0, mkAudioEntry "A" 1 1, mkAudioEntry "A" 2 2]
      [.audio { chunk_index := 0, connection_id := "A", meeting_id := "m",
                timestamp := 0, body := none },
       .audio { chunk_index := 1, connection_id := "A", meeting_id := "m",
                timestamp := 1, body := none },
       .audio { chunk_index := 2, connection_id := "A", meeting_id := "m",
                timestamp := 2, body := none }]
      { validationError := none,
        steps := [⟨.audio ⟨0, "A", "m", 0, none⟩, 0, true⟩,
                  ⟨.audio ⟨1, "A", "m", 1, none⟩, 1, false⟩,
                  ⟨.audio ⟨2, "A", "m", 2, none⟩, 2, true⟩],
        sent := [("A", 0), ("A", 2)],
        report := [("A", [1])] }
      (by decide) (by with_unfolding_all decide) rfl
    exact h.2.1.trans (by decide)
  · have h := C5_per_call_failures_contained (RConfig.mk true 1)
      (fun k => k == 1)
      [mkAudioEntry "A" 0 0, mkAudioEntry "A" 1 1, mkAudioEntry "A" 2 2]
      [.audio { chunk_index := 0, connection_id := "A", meeting_id := "m",
                timestamp := 0, body := none },
       .audio { chunk_index := 1, connection_id := "A", meeting_id := "m",
                timestamp := 1, body := none },
       .audio { chunk_index := 2, connection_id := "A", meeting_id := "m",
                timestamp := 2, body := none }]
      { validationError := none,
        steps := [⟨.audio ⟨0, "A", "m", 0, none⟩, 0, true⟩,
                  ⟨.audio ⟨1, "A", "m", 1, none⟩, 1, false⟩,
                  ⟨.audio ⟨2, "A", "m", 2, none⟩, 2, true⟩],
        sent := [("A", 0), ("A", 2)],
        report := [("A", [1])] }
      (by decide) (by with_unfolding_all decide) rfl
    exact (h.2.2 "A").mpr ⟨by decide, 1, by decide, by decide⟩

/-- Pattern selection never fails over a nonempty pattern list: either the
time-window search hits, or the round-robin fallback index
`i % len(patterns)` is in range. -/
theorem pickPattern_ok (patterns : List AudioSpeakerPattern)
    (chunk relative_time : ℚ) (i : Nat) (hne : patterns ≠ []) :
    ∃ p, pickPattern patterns chunk relative_time i = .ok p := by
  unfold pickPattern
  cases hf : patterns.find?
      (fun p => decide (|p.relative_timestamp - relative_time| < chunk)) with
  | some p => exact ⟨p, rfl⟩
  | none =>
    have hlen : 0 < (patterns.length : Int) := by
      have := List.length_pos.mpr hne
      exact_mod_cast this
    have h0 : 0 ≤ pyMod (i : Int) (patterns.length : Int) := by
      unfold pyMod
      exact Int.fmod_nonneg (Int.natCast_nonneg i) hlen.le
    have h1 : pyMod (i : Int) (patterns.length : Int) < (patterns.length : Int) := by
      unfold pyMod
      exact Int.fmod_lt_of_pos _ hlen
    cases hg : patterns.get? (pyMod (i : Int) (patterns.length : Int)).toNat with
    | none =>
      have := List.get?_eq_none.mp hg
      omega
    | some p => exact ⟨p, rfl⟩

/-- Every slot whose pattern selection succeeds — in particular every slot
over a nonempty pattern list — raises the `AttributeError` of
synthetic.py:321 while building the audio-entry dict. -/
theorem genSlot_attributeError (patterns : List AudioSpeakerPattern)
    (cfg : SyntheticMeeting) (speakers : List Speaker) (user : SyntheticUser)
    (i : Nat) (st : GenState) (hne : patterns ≠ []) :
    genSlot patterns cfg speakers user i st = .error .attributeError := by
  obtain ⟨p, hp⟩ := pickPattern_ok patterns cfg.chunk_duration_sec
    ((i : ℚ) * cfg.chunk_duration_sec) i hne
  unfold genSlot
  rw [hp]

/-- The first chunk slot's `AttributeError` propagates through the per-user
slot loop. -/
theorem genUserSlots_attributeError (patterns : List AudioSpeakerPattern)
    (cfg : SyntheticMeeting) (speakers : List Speaker) (user : SyntheticUser)
    (i : Nat) (is : List Nat) (st : GenState) (hne : patterns ≠ []) :
    genUserSlots patterns cfg speakers user (i :: is) st
      = .error .attributeError := by
  unfold genUserSlots
  rw [genSlot_attributeError patterns cfg speakers user i st hne]

/-- With at least one user and at least one slot, the first user's first
slot already aborts the whole generation loop. -/
theorem genUsers_attributeError (patterns : List AudioSpeakerPattern)
    (cfg : SyntheticMeeting) (speakers : List Speaker) (u : SyntheticUser)
    (us : List SyntheticUser) (i : Nat) (is : List Nat) (st : GenState)
    (hne : patterns ≠ []) :
    genUsers patterns cfg speakers (i :: is) (u :: us) st
      = .error .attributeError := by
  unfold genUsers
  rw [genUserSlots_attributeError patterns cfg speakers u i is st hne]

/-- C9 (amended): `generate_meeting` returns only on runs that never execute
a chunk slot; every run that reaches the first chunk slot — at least one
user, at least one chunk per user, speakers resolved, over a nonempty
pattern list (the loader only ever yields nonempty ones) — fails, and not
with the modulo-by-zero of the speaker-update check (synthetic.py:329) but
earlier and unconditionally, with the `AttributeError` of
`pattern.audio_chunk.decode('latin1')` at synthetic.py:321: `audio_chunk`
holds the `str` that `json.loads` produced, and `str` has no `.decode` in
Python 3.  No hypothesis on `speaker_update_interval_sec` is needed. -/
theorem C9_amended_first_slot_attribute_error
    (patterns : List AudioSpeakerPattern) (u c : String)
    (sp : List (String × List (ℚ × ℚ))) (cfg : SyntheticMeeting)
    (spk : List Speaker)
    (hpat : patterns ≠ [])
    (hres : resolveSpeakers sp cfg = .ok spk)
    (hchunk : cfg.chunk_duration_sec ≠ 0)
    (husers : 1 ≤ cfg.num_users)
    (hslots : 1 ≤ pyFdiv
      (pyTrunc ((cfg.duration_minutes : ℚ) * 60 / cfg.chunk_duration_sec))
      cfg.num_users) :
    generate_meeting patterns u c sp cfg = .error .attributeError := by
  obtain ⟨m, hm⟩ : ∃ m, cfg.num_users.toNat = m + 1 :=
    ⟨cfg.num_users.toNat - 1, by omega⟩
  obtain ⟨j, hj⟩ : ∃ j, (pyFdiv
      (pyTrunc ((cfg.duration_minutes : ℚ) * 60 / cfg.chunk_duration_sec))
      cfg.num_users).toNat = j + 1 :=
    ⟨(pyFdiv
      (pyTrunc ((cfg.duration_minutes : ℚ) * 60 / cfg.chunk_duration_sec))
      cfg.num_users).toNat - 1, by omega⟩
  simp only [generate_meeting, hres]
  rw [if_neg hchunk, if_neg (show ¬ cfg.num_users = 0 by omega)]
  rw [mkUsers, hm, hj, List.replicate_succ, List.range_succ_eq_map]
  rw [genUsers_attributeError patterns cfg spk _ _ 0 _ _ hpat]

/-- Witness for C9 (amended): the declared dataclass defaults (chunk 1.0 s,
interval 0.5 s, 30 minutes, 2 users) reach the first chunk slot and crash
with the `AttributeError`. -/
theorem C9_amended_first_slot_attribute_error_witness :
    generate_meeting [demoPattern] "U" "C" [] demoMeetingDefaults
      = .error .attributeError :=
  C9_amended_first_slot_attribute_error [demoPattern] "U" "C" []
    demoMeetingDefaults [{ name := "S", speaking_patterns := [(0, 100)] }]
    (List.cons_ne_nil _ _) rfl (by with_unfolding_all decide) (by decide)
    (by with_unfolding_all decide)

set_option maxRecDepth 8192 in
/-- Counterexample to C9 as stated.  First, `generate_meeting` is total on a
zero-duration configuration whose `int(interval/chunk)` is `0 < 1`, refuting
"only total when `int(speaker_update_interval_sec / chunk_duration_sec) ≥ 1`".
Second, the declared defaults configuration (interval 0.5 < chunk 1.0) does
reach the first chunk slot and fails — but with `AttributeError`, raised
while building the audio entry (synthetic.py:321), not with the
modulo-by-zero error at the speaker-update check that the claim names. -/
theorem C9_counterexample_totality_and_failure_mode :
    (generate_meeting [demoPattern] "U" "C" [] demoMeetingZeroSlots = .ok []
      ∧ pyTrunc (demoMeetingZeroSlots.speaker_update_interval_sec
          / demoMeetingZeroSlots.chunk_duration_sec) < 1)
    ∧ generate_meeting [demoPattern] "U" "C" [] demoMeetingDefaults
        = .error .attributeError
    ∧ PyErr.attributeError ≠ PyErr.zeroDivisionError := by
  refine ⟨⟨by with_unfolding_all decide, by with_unfolding_all decide⟩,
    by with_unfolding_all decide, by decide⟩

/-- C1: the claimed by-construction guarantee — per-connection audio chunk
indices exactly `0..N−1`, hence validator-clean synthesizer output — is
unattainable, because `generate_meeting` crashes with `AttributeError` at
its very first chunk slot (synthetic.py:321,
`pattern.audio_chunk.decode('latin1')` on a `str`), before a single audio
entry is emitted.  Concretely, a 1-minute 2-user meeting with 30-second
chunks produces no call sequence at all. -/
theorem C1_generate_meeting_crashes_first_slot :
    generate_meeting [demoPattern] "U" "C" [] demoMeeting
      = .error .attributeError := by
  with_unfolding_all decide

/-- Decomposition of a successful `generateMeetings` run into the
per-meeting entry lists, in order. -/
theorem generateMeetings_parts (patterns : List AudioSpeakerPattern)
    (u c : String) (sp : List (String × List (ℚ × ℚ))) :
    ∀ (ms : List SyntheticMeeting) (es : List GenCall),
      generateMeetings patterns u c sp ms = .ok es →
      ∃ parts : List (List GenCall),
        List.Forall₂ (fun m p => generate_meeting patterns u c sp m = .ok p)
          ms parts
        ∧ es = parts.flatten := by
  intro ms
  induction ms with
  | nil =>
    intro es h
    simp only [generateMeetings] at h
    obtain rfl := Except.ok.inj h
    exact ⟨[], List.Forall₂.nil, rfl⟩
  | cons m ms ih =>
    intro es h
    unfold generateMeetings at h
    cases hg : generate_meeting patterns u c sp m with
    | error e => rw [hg] at h; cases h
    | ok e =>
      rw [hg] at h
      cases hr : generateMeetings patterns u c sp ms with
      | error e2 => rw [hr] at h; cases h
      | ok r =>
        rw [hr] at h
        have h2 : e ++ r = es := Except.ok.inj h
        obtain ⟨parts, hf, hflat⟩ := ih r hr
        refine ⟨e :: parts, List.Forall₂.cons hg hf, ?_⟩
        rw [List.flatten_cons, ← hflat, ← h2]

/-- C8 (amended): whenever the Scenario Builder returns a log — which, since
every chunk slot of `generate_meeting` raises `AttributeError`
(synthetic.py:321), happens only when every meeting runs zero chunk slots —
the emitted entry list is sorted non-decreasingly by timestamp and is
exactly a permutation of the concatenation (with multiplicity) of the
entries each meeting config generates on its own: the merge adds, drops and
modifies nothing. -/
theorem C8_scenario_builder_amended (patterns : List AudioSpeakerPattern)
    (u c : String) (sp : List (String × List (ℚ × ℚ)))
    (ms : List SyntheticMeeting) (l : List GenCall)
    (h : generate_test_scenario patterns u c sp ms = .ok l) :
    List.Pairwise (fun a b : GenCall => a.ts ≤ b.ts) l ∧
    ∃ parts : List (List GenCall),
      List.Forall₂ (fun m p => generate_meeting patterns u c sp m = .ok p)
        ms parts
      ∧ l.Perm parts.flatten := by
  unfold generate_test_scenario at h
  cases hg : generateMeetings patterns u c sp ms with
  | error e => rw [hg] at h; cases h
  | ok es =>
    rw [hg] at h
    have h2 : List.insertionSort (fun a b : GenCall => a.ts ≤ b.ts) es = l :=
      Except.ok.inj h
    subst h2
    constructor
    · haveI ht : IsTotal GenCall (fun a b : GenCall => a.ts ≤ b.ts) :=
        ⟨fun a b => le_total _ _⟩
      haveI htr : IsTrans GenCall (fun a b : GenCall => a.ts ≤ b.ts) :=
        ⟨fun a b c1 hab hbc => le_trans hab hbc⟩
      exact List.sorted_insertionSort (fun a b : GenCall => a.ts ≤ b.ts) es
    · obtain ⟨parts, hf, hflat⟩ := generateMeetings_parts patterns u c sp ms es hg
      exact ⟨parts, hf, hflat ▸ List.perm_insertionSort _ es⟩

/-- Witness for C8 (amended): a scenario of two zero-duration meetings — the
only kind of configuration the synthesizer completes — on which the Builder
returns, with a sorted (here empty) merged log. -/
theorem C8_scenario_builder_amended_witness :
    List.Pairwise (fun a b : GenCall => a.ts ≤ b.ts)
      ((generate_test_scenario [demoPattern] "U" "C" []
        [demoMeetingZeroSlots, demoMeetingZeroSlots]).toOption.getD []) :=
  (C8_scenario_builder_amended [demoPattern] "U" "C" []
    [demoMeetingZeroSlots, demoMeetingZeroSlots]
    ((generate_test_scenario [demoPattern] "U" "C" []
      [demoMeetingZeroSlots, demoMeetingZeroSlots]).toOption.getD [])
    (by with_unfolding_all decide)).1

/-- Counterexample to C8 as stated: on the spec's own scenario shape — two
meeting configurations with overlapping time ranges — the Scenario Builder
emits no log at all: `generate_test_scenario` propagates the
`AttributeError` raised at the first meeting's first chunk slot
(synthetic.py:321) instead of returning a sorted permutation of the
meetings' entries. -/
theorem C8_counterexample_builder_crashes :
    generate_test_scenario [demoPattern] "U" "C" []
      [demoMeeting, demoMeetingLater] = .error .attributeError := by
  with_unfolding_all decide

end VexaTest
